import Mathlib

/-
Verification of the rdir assignment dispatcher and rdir client
(oio/rdir/client.py) against its natural-language specification.

The Python source is shallowly embedded: every function is translated to a
pure Lean function; external collaborators (conscience, directory service,
HTTP transport) become oracle parameters; exceptions become an explicit
error type; side effects (load-balancer polls, directory force writes,
sleeps, database creations, directory lookups) are recorded in an explicit
event trace.
-/

namespace RdirSpec

/-- Error values raised by the embedded code.

Modelled from the spec: the exception class hierarchy of
`oio.common.exceptions` is not under src/.  Per the spec's error taxonomy
(section 7), `NetworkFailure` (transport level, `OioNetworkException`) is a
class distinct from the status-carrying application error
(`ClientException`), and `NotFound`, `ServiceUnavailable`, `ServerException`
and `VolumeException` are further distinct kinds; `py` stands for a plain
Python error (KeyError / ValueError / NameError) that is not an
OioException at all. -/
inductive OioErr where
  | notFound (message : String)
  | client (status : Int) (message : String)
  | network (message : String)
  | unavailable (message : String)
  | server (message : String)
  | volume (message : String)
  | generic (message : String)
  | py (message : String)
deriving DecidableEq, Repr

/-- Whether an error is an `OioException` (caught by `except OioException`).
Python-level errors (KeyError, ValueError, ...) are not. -/
def isOioException : OioErr → Bool
  | .py _ => false
  | _ => true

/-- `_make_id(ns, type_, addr)`: `"%s|%s|%s" % (ns, type_, addr)`. -/
def make_id (ns type_ addr : String) : String :=
  ns ++ "|" ++ type_ ++ "|" ++ addr

/-- One entry of a directory `list` response (`resp['srv']`): only the
`type` and `host` fields are consumed by this client. -/
structure SrvLink where
  typ : String
  host : String
deriving DecidableEq, Repr

/-- `_filter_rdir_host(allsrv)`: first entry of type `'rdir'`, else
`NotFound`. -/
def filter_rdir_host (allsrv : List SrvLink) : Except OioErr String :=
  match allsrv.find? (fun srv => srv.typ = "rdir") with
  | some srv => .ok srv.host
  | none => .error (.notFound "No rdir service found")

/-- A conscience service record.  The dynamic `tags` mapping is embedded by
its two consumed keys: `tags.get('stat.opened_db_count')` (a numeric
advisory load, `none` when absent) and `tags.get('tag.service_id')`. -/
structure ServiceRecord where
  addr : String
  score : Int
  opened_db_count : Option Int
  service_id : Option String
deriving DecidableEq, Repr

/-- A service returned by a load-balancer poll (`polled['addr']`,
`polled['id']`). -/
structure PolledSrv where
  addr : String
  id : String
deriving DecidableEq, Repr

/-- Python truthiness of an optional integer (`if not max_per_rdir`):
`None` and `0` are falsy. -/
def pyTruthy : Option Int → Bool
  | none => false
  | some n => !(n == 0)

/-- Python `a or b` for an optional string `a` (None and `''` are falsy). -/
def pyOr (a : Option String) (b : String) : String :=
  match a with
  | some s => if s = "" then b else s
  | none => b

/-- Python `s.startswith(pre)`. -/
def py_startswith (s pre : String) : Bool :=
  pre.data.isPrefixOf s.data

/-- Helper for `py_split`: split a character list on a separator,
Python-style (`''.split(sep) == ['']`, separators never collapsed). -/
def splitChars (sep : Char) : List Char → List (List Char)
  | [] => [[]]
  | c :: rest =>
    let r := splitChars sep rest
    if c = sep then [] :: r
    else
      match r with
      | h :: t => (c :: h) :: t
      | [] => [[c]]

/-- Python `s.split(sep)` for a one-character separator. -/
def py_split (s : String) (sep : Char) : List String :=
  (splitChars sep s.data).map (fun cs => String.mk cs)

/-- Python dict assignment `d[k] = v` on an association list: replace the
value if the key is present, else append. -/
def dictSet {A : Type} (d : List (String × A)) (k : String) (v : A) :
    List (String × A) :=
  match d with
  | [] => [(k, v)]
  | p :: rest => if p.1 = k then (k, v) :: rest else p :: dictSet rest k v

/-- Python dict lookup `d[k]` / `k in d` on an association list. -/
def dictGet {A : Type} (d : List (String × A)) (k : String) : Option A :=
  match d with
  | [] => none
  | p :: rest => if p.1 = k then some p.2 else dictGet rest k

/-- Python `d.pop(k, None)`. -/
def dictPop {A : Type} (d : List (String × A)) (k : String) :
    List (String × A) :=
  match d with
  | [] => []
  | p :: rest => if p.1 = k then rest else p :: dictPop rest k

/-- The `by_id` dict `{_make_id(ns, 'rdir', x['addr']): x for x in all_rdir}`. -/
def by_id_init (ns : String) (all_rdir : List ServiceRecord) :
    List (String × ServiceRecord) :=
  all_rdir.foldl (fun d x => dictSet d (make_id ns "rdir" x.addr) x) []

/-! ## Selection-and-link algorithm (`_smart_link_rdir`), avoid-set part -/

/-- `opened_db = [x['tags'].get('stat.opened_db_count', 0) for x in all_rdir
if x['score'] > 0]`. -/
def opened_db_list (all_rdir : List ServiceRecord) : List Int :=
  (all_rdir.filter (fun x => decide (0 < x.score))).map
    (fun x => x.opened_db_count.getD 0)

/-- The upper load threshold, lines 191-194 of the source:
`sum(opened_db) / float(len(opened_db))` when `not max_per_rdir`, else
`max_per_rdir - 1`.  Real (float) division is embedded as exact rational
division. -/
def upper_limit (max_per_rdir : Option Int) (opened_db : List Int) : Rat :=
  if !(pyTruthy max_per_rdir) then
    ((opened_db.sum : Int) : Rat) / ((opened_db.length : Nat) : Rat)
  else
    ((max_per_rdir.getD 0 : Int) : Rat) - 1

/-- The avoid-set, lines 195-198 of the source: ids of the healthy rdirs
whose advisory load strictly exceeds the threshold. -/
def avoids_list (ns : String) (max_per_rdir : Option Int)
    (all_rdir : List ServiceRecord) : List String :=
  let odb := opened_db_list all_rdir
  let ul := upper_limit max_per_rdir odb
  (all_rdir.filter (fun x =>
      decide (0 < x.score) &&
      decide (ul < ((x.opened_db_count.getD 0 : Int) : Rat)))).map
    (fun x => make_id ns "rdir" x.addr)

/-- The avoid-set exactly as claim C1 words it: the threshold is the mean
load whenever no explicit cap is given, and `cap - 1` whenever an explicit
cap is given (any given cap, with no exception for zero). -/
def claim_avoids (ns : String) (max_per_rdir : Option Int)
    (all_rdir : List ServiceRecord) : List String :=
  let odb := opened_db_list all_rdir
  let thr : Rat :=
    match max_per_rdir with
    | none => ((odb.sum : Int) : Rat) / ((odb.length : Nat) : Rat)
    | some c => (c : Rat) - 1
  (all_rdir.filter (fun x =>
      decide (0 < x.score) &&
      decide (thr < ((x.opened_db_count.getD 0 : Int) : Rat)))).map
    (fun x => make_id ns "rdir" x.addr)

/-- The threshold the code actually uses, phrased over the fleet: the mean
of the healthy loads when the cap is absent or zero (Python-falsy), and
`cap - 1` when a nonzero cap is given. -/
def amended_threshold (max_per_rdir : Option Int)
    (all_rdir : List ServiceRecord) : Rat :=
  let odb := opened_db_list all_rdir
  match max_per_rdir with
  | some c =>
      if c ≠ 0 then (c : Rat) - 1
      else ((odb.sum : Int) : Rat) / ((odb.length : Nat) : Rat)
  | none => ((odb.sum : Int) : Rat) / ((odb.length : Nat) : Rat)

/-- The `[2, 4, 6]` fleet from the spec's load-balancing example. -/
def fleet246 : List ServiceRecord :=
  [{ addr := "r2", score := 80, opened_db_count := some 2, service_id := none },
   { addr := "r4", score := 80, opened_db_count := some 4, service_id := none },
   { addr := "r6", score := 80, opened_db_count := some 6, service_id := none }]

/-- A one-element healthy fleet used to refute claim C1 at cap 0. -/
def fleetOne : List ServiceRecord :=
  [{ addr := "r1", score := 1, opened_db_count := some 0, service_id := none }]

/-! ## Effect traces and the rest of `_smart_link_rdir` -/

/-- Observable side effects of the embedded operations: load-balancer
polls (with the avoid and known lists passed), directory force writes
(with the attempt index), sleeps (with the duration in seconds), rdir
database creations, directory `list` lookups, and invocations of the
selection-and-link algorithm by `assign_services`. -/
inductive Ev where
  | pollCall (avoid : Option (List String)) (known : List String)
  | forceCall (i : Nat)
  | sleepCall (seconds : Nat)
  | createCall (volume : String)
  | dirListCall (reference : String)
  | linkCall (volume : String)
deriving DecidableEq, Repr

/-- Number of directory force attempts recorded in a trace. -/
def forceCount (evs : List Ev) : Nat :=
  (evs.filter (fun e => match e with | .forceCall _ => true | _ => false)).length

/-- The sleep durations recorded in a trace, in order. -/
def sleepsOf (evs : List Ev) : List Nat :=
  evs.filterMap (fun e => match e with | .sleepCall s => some s | _ => none)

/-- The avoid lists of the poll calls recorded in a trace, in order. -/
def pollsOf (evs : List Ev) : List (Option (List String)) :=
  evs.filterMap (fun e => match e with | .pollCall a _ => some a | _ => none)

/-- Lines 200-206 of `_smart_link_rdir`: call `_poll_rdir` with the avoid
and known lists; if it raises a `ClientException` whose status is 481 and
no (truthy) cap was given, retry exactly once without the avoid list;
otherwise re-raise.  `pollO n` is the outcome of the n-th `_poll_rdir`
call. -/
def poll_phase (max_per_rdir : Option Int) (avoid known : List String)
    (pollO : Nat → Except OioErr PolledSrv) :
    Except OioErr PolledSrv × List Ev :=
  match pollO 0 with
  | .ok polled => (.ok polled, [.pollCall (some avoid) known])
  | .error e =>
    match e with
    | .client status message =>
      if status ≠ 481 ∨ pyTruthy max_per_rdir then
        (.error (.client status message), [.pollCall (some avoid) known])
      else
        (pollO 1, [.pollCall (some avoid) known, .pollCall none known])
    | _ => (.error e, [.pollCall (some avoid) known])

/-- First designated "already linked" message prefix (source line 221). -/
def already0_msg : String :=
  "META1 error: (SQLITE_CONSTRAINT) UNIQUE constraint failed"

/-- Second designated "already linked" message prefix (source line 227). -/
def already1_msg : String :=
  "META1 error: (SQLITE_CONSTRAINT) columns cid, srvtype, seq are not unique"

/-- Lines 211-242 of `_smart_link_rdir`: the directory force loop.
`forceO i` is the outcome of the i-th `directory.force` call (`none` =
success).  Only `ClientException` is caught: status 455 and the two
"already linked" message prefixes break out as success, statuses >= 400
outside {406, 450, 503, 504} re-raise at once, and otherwise the attempt
is retried after sleeping `i` seconds, until the attempt ceiling.  Any
non-`ClientException` error (e.g. a network error) propagates immediately.
Returns (`none` = link established / already done, `some e` = raised `e`)
together with the trace; `fuel` counts the remaining loop iterations and
starts at `max_attempts`. -/
def force_loop_go (forceO : Nat → Option OioErr) (max_attempts : Nat) :
    Nat → Nat → Option OioErr × List Ev
  | 0, _ => (none, [])
  | fuel + 1, i =>
    match forceO i with
    | none => (none, [.forceCall i])
    | some e =>
      match e with
      | .client status message =>
        if status = 455 then (none, [.forceCall i])
        else if py_startswith message already0_msg then (none, [.forceCall i])
        else if py_startswith message already1_msg then (none, [.forceCall i])
        else if 400 ≤ status ∧ status ∉ ([406, 450, 503, 504] : List Int) then
          (some (.client status message), [.forceCall i])
        else if i < max_attempts - 1 then
          let r := force_loop_go forceO max_attempts fuel (i + 1)
          (r.1, .forceCall i :: .sleepCall i :: r.2)
        else (some (.client status message), [.forceCall i])
      | _ => (some e, [.forceCall i])

/-- The force loop, started at attempt 0 with full fuel. -/
def force_loop (forceO : Nat → Option OioErr) (max_attempts : Nat) :
    Option OioErr × List Ev :=
  force_loop_go forceO max_attempts max_attempts 0

/-- `_smart_link_rdir(volume_id, all_rdir, max_per_rdir, max_attempts,
service_type)`.  Oracles: `pollO` for `_poll_rdir`, `forceO` for
`directory.force`, `createO` for `rdir.create` (whose failure is logged
and swallowed).  Returns the raised error or the polled rdir's id,
together with the effect trace. -/
def smart_link_rdir (ns volume_id : String) (all_rdir : List ServiceRecord)
    (max_per_rdir : Option Int) (max_attempts : Nat) (service_type : String)
    (pollO : Nat → Except OioErr PolledSrv) (forceO : Nat → Option OioErr)
    (createO : Option OioErr) : Except OioErr String × List Ev :=
  let opened_db := opened_db_list all_rdir
  if opened_db.length = 0 then
    (.error (.unavailable ("No valid rdir service found in " ++ ns)), [])
  else
    let avoid := avoids_list ns max_per_rdir all_rdir
    let known := [make_id ns service_type volume_id]
    match poll_phase max_per_rdir avoid known pollO with
    | (.error e, evs) => (.error e, evs)
    | (.ok polled, evs) =>
      match force_loop forceO max_attempts with
      | (some e, evs2) => (.error e, evs ++ evs2)
      | (none, evs2) =>
        -- `rdir.create` failure is caught and only logged (`createO` is
        -- intentionally unused beyond this comment).
        let _ := createO
        (.ok polled.id, evs ++ evs2 ++ [.createCall volume_id])

/-- The trace shape of a force loop that retries at every attempt:
`forceCall i, sleepCall i, forceCall (i+1), ..., forceCall (i+fuel-1)`
(a sleep after every attempt but the last). -/
def retried_trace : Nat → Nat → List Ev
  | 0, _ => []
  | 1, i => [.forceCall i]
  | fuel + 2, i => .forceCall i :: .sleepCall i :: retried_trace (fuel + 1) (i + 1)

/-! ## `assign_services` (write path) -/

/-- One step of error grouping: record volume `v` under the group of
error `e`, appending a new group when the signature is new. -/
def addErr : List (OioErr × List String) → String → OioErr →
    List (OioErr × List String)
  | [], v, e => [(e, [v])]
  | g :: gs, v, e =>
    if g.1 = e then (g.1, g.2 ++ [v]) :: gs else g :: addErr gs v e

/-- Modelled from the spec: `group_chunk_errors` (`oio.common.utils`) is
not under src/; per section 4.5 the collected `(volume, error)` pairs are
grouped by normalized error signature, embedded here as equality of the
error value, in first-occurrence order. -/
def group_chunk_errors (errs : List (String × OioErr)) :
    List (OioErr × List String) :=
  errs.foldl (fun groups p => addErr groups p.1 p.2) []

/-- Outcome of `assign_services`: the per-provider attachments when
nothing was raised, or the raised error. -/
inductive AssignResult where
  | ok (results : List (String × Option ServiceRecord))
  | reraised (e : OioErr) (volumes : List String)
  | aggregate (groups : List (OioErr × List String))
  | unavailableErr (message : String)
  | pyError (message : String)
deriving DecidableEq, Repr

/-- Lines 147-155 of `assign_services`: group the collected errors; with
exactly one group re-raise that error kind carrying all affected volume
ids (`oio_reraise`, not under src/, modelled from the spec), with several
groups raise one generic aggregate error enumerating them; with no errors
raise nothing (`none`). -/
def finalize_errors (errors : List (String × OioErr)) : Option AssignResult :=
  if errors.isEmpty then none
  else
    match group_chunk_errors errors with
    | [g] => some (.reraised g.1 g.2)
    | gs => some (.aggregate gs)

/-- Mutable state of the `assign_services` loop: the `by_id` dict, the
per-provider `provider['rdir']` attachments in input order, the collected
`(provider_id, error)` pairs, and the effect trace. -/
structure AssignAcc where
  by_id : List (String × ServiceRecord)
  results : List (String × Option ServiceRecord)
  errors : List (String × OioErr)
  events : List Ev
deriving DecidableEq, Repr

/-- Lines 113-146 of `assign_services`: process one provider.  `dirList`
is `directory.list` keyed by provider id; `linkO` is the outcome of the
`_smart_link_rdir` call for a provider (that call is embedded separately
as `smart_link_rdir`).  An existing link to a known rdir attaches it; to
an unknown rdir only logs a warning (`KeyError` caught: no attachment, no
collected error, no link attempt); `NotFound` triggers the link attempt,
whose `OioException` failure is collected; any other `OioException` from
the lookup is collected.  A Python-level error (the `by_id[rdir]` lookup
after a successful link, or a non-OioException) aborts the batch
(`.error`). -/
def assign_step (ns : String) (dirList : String → Except OioErr (List SrvLink))
    (linkO : String → Except OioErr String)
    (acc : AssignAcc) (provider : ServiceRecord) : Except String AssignAcc :=
  let pid := provider.service_id.getD provider.addr
  let attempt_link : Except String AssignAcc :=
    match linkO pid with
    | .error e =>
      if isOioException e then
        .ok { acc with
              results := acc.results ++ [(pid, none)],
              errors := acc.errors ++ [(pid, e)],
              events := acc.events ++ [.dirListCall pid, .linkCall pid] }
      else .error "uncaught non-oio exception"
    | .ok rdir =>
      match dictGet acc.by_id rdir with
      | none => .error "KeyError"
      | some r =>
        let r2 :=
          { r with opened_db_count := some (r.opened_db_count.getD 0 + 1) }
        .ok { acc with
              by_id := dictSet acc.by_id rdir r2,
              results := acc.results ++ [(pid, some r2)],
              events := acc.events ++ [.dirListCall pid, .linkCall pid] }
  match dirList pid with
  | .ok resp =>
    match filter_rdir_host resp with
    | .ok rdir_host =>
      match dictGet acc.by_id (make_id ns "rdir" rdir_host) with
      | some r =>
        .ok { acc with results := acc.results ++ [(pid, some r)],
                       events := acc.events ++ [.dirListCall pid] }
      | none =>
        -- `except KeyError`: "rdir seems down" is logged and nothing else
        -- happens for this provider.
        .ok { acc with results := acc.results ++ [(pid, none)],
                       events := acc.events ++ [.dirListCall pid] }
    | .error _ => attempt_link  -- NotFound raised by _filter_rdir_host
  | .error (.notFound _) => attempt_link
  | .error e =>
    if isOioException e then
      .ok { acc with results := acc.results ++ [(pid, none)],
                     errors := acc.errors ++ [(pid, e)],
                     events := acc.events ++ [.dirListCall pid] }
    else .error "uncaught non-oio exception"

/-- The `for provider in all_services` loop of `assign_services`. -/
def assign_fold (ns : String) (dirList : String → Except OioErr (List SrvLink))
    (linkO : String → Except OioErr String) :
    List ServiceRecord → AssignAcc → Except String AssignAcc
  | [], acc => .ok acc
  | p :: rest, acc =>
    match assign_step ns dirList linkO acc p with
    | .error m => .error m
    | .ok acc2 => assign_fold ns dirList linkO rest acc2

/-- `assign_services(service_type, max_per_rdir)`.  `max_per_rdir` and
`service_type` only flow into the `_smart_link_rdir` call and are folded
into the `linkO` oracle. -/
def assign_services (ns : String) (all_services all_rdir : List ServiceRecord)
    (dirList : String → Except OioErr (List SrvLink))
    (linkO : String → Except OioErr String) : AssignResult × List Ev :=
  if all_rdir.length = 0 then
    (.unavailableErr ("No rdir service found in " ++ ns), [])
  else
    match assign_fold ns dirList linkO all_services
        { by_id := by_id_init ns all_rdir, results := [], errors := [],
          events := [] } with
    | .error m => (.pyError m, [])
    | .ok acc =>
      match finalize_errors acc.errors with
      | none => (.ok acc.results, acc.events)
      | some r => (r, acc.events)

/-! ## Address resolver and request executor (`RdirClient`) -/

/-- Result of `_get_rdir_addr`: resolved host (or error), updated cache,
trace of directory lookups performed. -/
structure ResolveOut where
  result : Except OioErr String
  cache : List (String × String)
  events : List Ev
deriving Repr

/-- `_clear_cache(volume_id)`: `self._addr_cache.pop(volume_id, None)`. -/
def clear_cache (cache : List (String × String)) (volume_id : String) :
    List (String × String) :=
  dictPop cache volume_id

/-- `_get_rdir_addr(volume_id)`: return the cached host if present, else
look the link up in the directory, cache and return it; `NotFound` (from
`directory.list` or `_filter_rdir_host`) becomes a `VolumeException`. -/
def get_rdir_addr (dirList : String → Except OioErr (List SrvLink))
    (cache : List (String × String)) (volume_id : String) : ResolveOut :=
  match dictGet cache volume_id with
  | some host => { result := .ok host, cache := cache, events := [] }
  | none =>
    match dirList volume_id with
    | .ok resp =>
      match filter_rdir_host resp with
      | .ok host =>
        { result := .ok host, cache := dictSet cache volume_id host,
          events := [.dirListCall volume_id] }
      | .error _ =>
        { result := .error (.volume ("No rdir assigned to volume " ++ volume_id)),
          cache := cache, events := [.dirListCall volume_id] }
    | .error (.notFound _) =>
      { result := .error (.volume ("No rdir assigned to volume " ++ volume_id)),
        cache := cache, events := [.dirListCall volume_id] }
    | .error e =>
      { result := .error e, cache := cache, events := [.dirListCall volume_id] }

/-- The per-service-type URL prefix table `RdirClient.base_url`. -/
def base_url : List (String × String) :=
  [("rawx", "rdir"), ("meta2", "rdir/meta2")]

/-- `_make_uri`'s format string `'http://%s/v1/%s/%s'`. -/
def make_uri_path (host service_base action : String) : String :=
  "http://" ++ host ++ "/v1/" ++ service_base ++ "/" ++ action

/-- Result of `_rdir_request`: response (or error), updated cache, trace. -/
structure RequestOut where
  result : Except OioErr (Int × String)
  cache : List (String × String)
  events : List Ev
deriving Repr

/-- Lines 317-321 of `_rdir_request`: `params['vol'] = volume` and, when
`create` is set, `params['create'] = '1'`. -/
def request_params (params0 : List (String × String)) (volume : String)
    (create : Bool) : List (String × String) :=
  let params1 := dictSet params0 "vol" volume
  if create then dictSet params1 "create" "1" else params1

/-- `_rdir_request(volume, method, action, create, params, service_type)`:
inject `vol` (and `create=1`), resolve the host (4.1), build the URI from
the per-type prefix table, perform the HTTP call (`httpO uri params`,
embedding `_direct_request`); on `OioNetworkException` evict the cached
address for the volume and re-raise; any other error or the response is
passed through with the cache untouched. -/
def rdir_request (dirList : String → Except OioErr (List SrvLink))
    (httpO : String → List (String × String) → Except OioErr (Int × String))
    (cache : List (String × String)) (volume action : String) (create : Bool)
    (params0 : List (String × String)) (service_type : String) : RequestOut :=
  let params := request_params params0 volume create
  let r := get_rdir_addr dirList cache volume
  match r.result with
  | .error e => { result := .error e, cache := r.cache, events := r.events }
  | .ok host =>
    match dictGet base_url service_type with
    | none =>
      { result := .error (.py "KeyError"), cache := r.cache, events := r.events }
    | some service_base =>
      let uri := make_uri_path host service_base action
      match httpO uri params with
      | .ok resp => { result := .ok resp, cache := r.cache, events := r.events }
      | .error (.network m) =>
        { result := .error (.network m), cache := clear_cache r.cache volume,
          events := r.events }
      | .error e =>
        { result := .error e, cache := r.cache, events := r.events }

/-! ## `chunk_fetch` (paginated fetch) -/

/-- The inner `for i in range(max_attempts)` retry loop of `chunk_fetch`:
`backend cursor` is the outcome of the page request (`_rdir_request` with
`start_after = cursor`); only `OioNetworkException` is retried, with a
sleep of `i` seconds before each retry; the sleep durations are returned
alongside.  With zero iterations `resp_body` would be unbound in Python
(`NameError`). -/
def fetch_page_go
    (backend : Option String → Except OioErr (List (String × String)))
    (max_attempts : Nat) (cursor : Option String) :
    Nat → Nat → Except OioErr (List (String × String)) × List Nat
  | 0, _ => (.error (.py "NameError"), [])
  | fuel + 1, i =>
    match backend cursor with
    | .ok page => (.ok page, [])
    | .error (.network m) =>
      if i < max_attempts - 1 then
        let r := fetch_page_go backend max_attempts cursor fuel (i + 1)
        (r.1, i :: r.2)
      else (.error (.network m), [])
    | .error e => (.error e, [])

/-- One page request with its bounded retry loop. -/
def fetch_page
    (backend : Option String → Except OioErr (List (String × String)))
    (max_attempts : Nat) (cursor : Option String) :
    Except OioErr (List (String × String)) × List Nat :=
  fetch_page_go backend max_attempts cursor max_attempts 0

/-- The `for (key, value) in resp_body` loop body: each key is split on
`'|'` into `container, content, chunk` and a 4-tuple is yielded; a key
that does not split into exactly three parts raises `ValueError` after
the earlier records of the page were already yielded. -/
def parse_records : List (String × String) →
    List (String × String × String × String) × Option OioErr
  | [] => ([], none)
  | (k, v) :: rest =>
    match py_split k '|' with
    | [container, content, chunk] =>
      let r := parse_records rest
      ((container, content, chunk, v) :: r.1, r.2)
    | _ => ([], some (.py "ValueError"))

/-- The `while True` pagination loop of `chunk_fetch`.  Returns the list
of `start_after` cursors of the page requests actually issued, and
`some (yielded tuples, raised error or none)` when the loop ended within
`fuel` iterations (`none` when it did not). -/
def chunk_fetch_go
    (backend : Option String → Except OioErr (List (String × String)))
    (max_attempts : Nat) :
    Nat → Option String →
    List (Option String) ×
      Option (List (String × String × String × String) × Option OioErr)
  | 0, _ => ([], none)
  | fuel + 1, cursor =>
    match (fetch_page backend max_attempts cursor).1 with
    | .error e => ([cursor], some ([], some e))
    | .ok page =>
      if page.length = 0 then ([cursor], some ([], none))
      else
        match parse_records page with
        | (tups, some e) => ([cursor], some (tups, some e))
        | (tups, none) =>
          match page.getLast? with
          | none => ([cursor], some (tups, some (.py "unreachable")))
          | some last =>
            let r := chunk_fetch_go backend max_attempts fuel (some last.1)
            (cursor :: r.1, r.2.map (fun p => (tups ++ p.1, p.2)))

/-- `chunk_fetch(volume, limit, rebuild, container_id, max_attempts)`:
the fixed request fields (`limit`, `rebuild`, `container_id`) do not vary
across pages and are folded into `backend`; the first request carries no
`start_after`. -/
def chunk_fetch
    (backend : Option String → Except OioErr (List (String × String)))
    (max_attempts fuel : Nat) :
    List (Option String) ×
      Option (List (String × String × String × String) × Option OioErr) :=
  chunk_fetch_go backend max_attempts fuel none

/-! ## `get_assignments` (read path) -/

/-- Mutable state of the `get_assignments` loop. -/
structure GetAcc where
  by_id : List (String × ServiceRecord)
  results : List (String × Option ServiceRecord)
  events : List Ev
deriving DecidableEq, Repr

/-- Lines 75-99 of `get_assignments`: process one service.  An existing
link whose rdir is known attaches the conscience record; an existing link
to an unknown rdir synthesizes an unhealthy placeholder (`{addr, tags:{}}`,
embedded with score 0 and empty tags), attaches it and remembers it in
`by_id`; `NotFound` and any other `OioException` leave the service
unattached (logged).  The read path performs only directory lookups. -/
def get_step (ns : String) (dirList : String → Except OioErr (List SrvLink))
    (acc : GetAcc) (service : ServiceRecord) : GetAcc :=
  let ref := pyOr service.service_id service.addr
  match dirList ref with
  | .ok resp =>
    match filter_rdir_host resp with
    | .ok rdir_host =>
      match dictGet acc.by_id (make_id ns "rdir" rdir_host) with
      | some r =>
        { acc with results := acc.results ++ [(service.addr, some r)],
                   events := acc.events ++ [.dirListCall ref] }
      | none =>
        let placeholder : ServiceRecord :=
          { addr := rdir_host, score := 0, opened_db_count := none,
            service_id := none }
        { acc with
          by_id := dictSet acc.by_id (make_id ns "rdir" rdir_host) placeholder,
          results := acc.results ++ [(service.addr, some placeholder)],
          events := acc.events ++ [.dirListCall ref] }
    | .error _ =>
      { acc with results := acc.results ++ [(service.addr, none)],
                 events := acc.events ++ [.dirListCall ref] }
  | .error _ =>
    -- `except NotFound` (info) and `except OioException` (warning) both
    -- leave the service unattached and continue with the batch.
    { acc with results := acc.results ++ [(service.addr, none)],
               events := acc.events ++ [.dirListCall ref] }

/-- `get_assignments(service_type)` over the already-fetched service and
rdir lists. -/
def get_assignments (ns : String) (all_services all_rdir : List ServiceRecord)
    (dirList : String → Except OioErr (List SrvLink)) : GetAcc :=
  all_services.foldl (get_step ns dirList)
    { by_id := by_id_init ns all_rdir, results := [], events := [] }

/-- A collected `(volume, error)` pair is covered by a group list when the
volume appears in the group of its error signature. -/
def covers (groups : List (OioErr × List String)) (v : String) (e : OioErr) :
    Prop :=
  ∃ vs, (e, vs) ∈ groups ∧ v ∈ vs

/-- Two providers with no rdir link yet. -/
def c6_provs : List ServiceRecord :=
  [{ addr := "p1", score := 50, opened_db_count := none, service_id := none },
   { addr := "p2", score := 60, opened_db_count := none, service_id := none }]

/-- A one-rdir fleet. -/
def c6_rdirs : List ServiceRecord :=
  [{ addr := "r1", score := 100, opened_db_count := some 0, service_id := none }]

/-- A three-page backend serving pages of sizes 2, 2 and 0, keyed by the
`start_after` cursor. -/
def c8_backend : Option String → Except OioErr (List (String × String)) :=
  fun cursor =>
    if cursor = none then .ok [("a|b|c", "v1"), ("d|e|f", "v2")]
    else if cursor = some "d|e|f" then .ok [("g|h|i", "v3"), ("j|k|l", "v4")]
    else .ok []

/-! ## Theorems -/

theorem upper_limit_eq_amended (cap : Option Int) (fleet : List ServiceRecord) :
    upper_limit cap (opened_db_list fleet) = amended_threshold cap fleet := by
  cases cap with
  | none => simp [upper_limit, amended_threshold, pyTruthy]
  | some c =>
    by_cases hc : c = 0 <;>
      simp [upper_limit, amended_threshold, pyTruthy, hc]

/-- C1, counterexample.  The claim says that whenever an explicit cap
`maxPerRdir` is given the threshold is `cap - 1`.  The code's test is
`if not max_per_rdir`, under which an explicit cap of `0` is falsy and the
mean is used instead: for a single healthy rdir of load 0 and an explicit
cap of 0, the claim's avoid-set contains the rdir (0 > -1) while the code's
avoid-set is empty (0 > mean 0 is false). -/
theorem C1_counterexample :
    avoids_list "NS" (some 0) fleetOne = [] ∧
    claim_avoids "NS" (some 0) fleetOne = [make_id "NS" "rdir" "r1"] ∧
    avoids_list "NS" (some 0) fleetOne ≠ claim_avoids "NS" (some 0) fleetOne := by
  have h1 : avoids_list "NS" (some 0) fleetOne = [] := by
    norm_num [avoids_list, upper_limit, opened_db_list, fleetOne, pyTruthy,
      List.filter]
  have h2 : claim_avoids "NS" (some 0) fleetOne = [make_id "NS" "rdir" "r1"] := by
    norm_num [claim_avoids, opened_db_list, fleetOne, List.filter]
  refine ⟨h1, h2, ?_⟩
  rw [h1, h2]
  simp

/-- C1 (amended): for every rdir fleet with at least one healthy member,
the avoid-set contains exactly the healthy rdirs whose advisory load
(`tags['stat.opened_db_count']`, defaulting to 0) strictly exceeds the
threshold, where the threshold is the mean load of the healthy rdirs when
the cap is absent *or zero* (Python-falsy) and `cap - 1` when a nonzero
explicit cap is given; in particular for healthy loads `[2, 4, 6]` and no
cap only the load-6 rdir is avoided, and for `maxPerRdir = 3` the threshold
is `2` regardless of the fleet mean. -/
theorem C1_avoid_set :
    (∀ ns cap fleet, 0 < (opened_db_list fleet).length →
      ∀ s, s ∈ avoids_list ns cap fleet ↔
        ∃ x, x ∈ fleet ∧ 0 < x.score ∧
          amended_threshold cap fleet < ((x.opened_db_count.getD 0 : Int) : Rat) ∧
          s = make_id ns "rdir" x.addr)
  ∧ (∀ c fleet, c ≠ 0 → amended_threshold (some c) fleet = (c : Rat) - 1)
  ∧ avoids_list "NS" none fleet246 = [make_id "NS" "rdir" "r6"]
  ∧ upper_limit (some 3) (opened_db_list fleet246) = 2 := by
  refine ⟨?_, ?_,
    by norm_num [avoids_list, upper_limit, opened_db_list, fleet246, pyTruthy,
      List.filter],
    by norm_num [upper_limit, opened_db_list, fleet246, pyTruthy]⟩
  · intro ns cap fleet _h s
    simp only [avoids_list, upper_limit_eq_amended, List.mem_map,
      List.mem_filter, Bool.and_eq_true, decide_eq_true_eq]
    constructor
    · rintro ⟨x, ⟨hx, hs, hl⟩, rfl⟩
      exact ⟨x, hx, hs, hl, rfl⟩
    · rintro ⟨x, hx, hs, hl, rfl⟩
      exact ⟨x, ⟨hx, hs, hl⟩, rfl⟩
  · intro c fleet hc
    simp [amended_threshold, hc]

/-- C1, witness: the membership characterization instantiated on the
`[2, 4, 6]` fleet with no cap. -/
theorem C1_witness :
    0 < (opened_db_list fleet246).length ∧
    (make_id "NS" "rdir" "r6" ∈ avoids_list "NS" none fleet246 ↔
      ∃ x, x ∈ fleet246 ∧ 0 < x.score ∧
        amended_threshold none fleet246 < ((x.opened_db_count.getD 0 : Int) : Rat) ∧
        make_id "NS" "rdir" "r6" = make_id "NS" "rdir" x.addr) :=
  ⟨by decide, C1_avoid_set.1 "NS" none fleet246 (by decide)
    (make_id "NS" "rdir" "r6")⟩

/-- C2: when the directory force write fails with status 455 or with
either of the two designated "already linked" constraint-violation
messages, `_smart_link_rdir` treats the outcome as success: it does not
raise, makes no further force attempt, proceeds to the best-effort
database creation, and returns the polled rdir's id — for every
`rdir.create` outcome `createO` (the idempotent second call). -/
theorem C2_already_linked :
    ∀ ns vol fleet cap stype pollO forceO createO polled st msg,
      0 < (opened_db_list fleet).length →
      pollO 0 = .ok polled →
      forceO 0 = some (.client st msg) →
      (st = 455 ∨ py_startswith msg already0_msg = true ∨
        py_startswith msg already1_msg = true) →
      smart_link_rdir ns vol fleet cap 7 stype pollO forceO createO =
        (.ok polled.id,
         [.pollCall (some (avoids_list ns cap fleet)) [make_id ns stype vol],
          .forceCall 0, .createCall vol]) := by
  intro ns vol fleet cap stype pollO forceO createO polled st msg hlen hpoll
    hforce hcase
  have hlen' : ¬((opened_db_list fleet).length = 0) := by omega
  have hloop : force_loop forceO 7 = (none, [.forceCall 0]) := by
    rcases hcase with h455 | h0 | h1
    · simp [force_loop, force_loop_go, hforce, h455]
    · by_cases h455 : st = 455
      · simp [force_loop, force_loop_go, hforce, h455]
      · simp [force_loop, force_loop_go, hforce, h455, h0]
    · by_cases h455 : st = 455
      · simp [force_loop, force_loop_go, hforce, h455]
      · by_cases h0 : py_startswith msg already0_msg = true
        · simp [force_loop, force_loop_go, hforce, h455, h0]
        · simp [force_loop, force_loop_go, hforce, h455, h0, h1]
  simp [smart_link_rdir, hlen', poll_phase, hpoll, hloop]

/-- C2, witness: a concurrent-duplication failure carrying the first
designated message succeeds on a one-rdir fleet. -/
theorem C2_witness :
    smart_link_rdir "NS" "vol1" fleetOne none 7 "rawx"
        (fun _ => .ok ⟨"10.0.0.9:6300", "NS|rdir|10.0.0.9:6300"⟩)
        (fun _ => some (.client 500
          "META1 error: (SQLITE_CONSTRAINT) UNIQUE constraint failed: blah"))
        none =
      (.ok "NS|rdir|10.0.0.9:6300",
       [.pollCall (some (avoids_list "NS" none fleetOne)) ["NS|rawx|vol1"],
        .forceCall 0, .createCall "vol1"]) :=
  C2_already_linked "NS" "vol1" fleetOne none "rawx" _ _ none
    ⟨"10.0.0.9:6300", "NS|rdir|10.0.0.9:6300"⟩ 500
    "META1 error: (SQLITE_CONSTRAINT) UNIQUE constraint failed: blah"
    (by decide) rfl rfl (Or.inr (Or.inl (by decide)))

theorem force_loop_go_all_retriable
    (forceO : Nat → Option OioErr) (stf : Nat → Int) (msgf : Nat → String)
    (ma : Nat)
    (hf : ∀ i, forceO i = some (.client (stf i) (msgf i)))
    (hst : ∀ i, stf i = 406 ∨ stf i = 450 ∨ stf i = 503 ∨ stf i = 504)
    (hmsg : ∀ i, py_startswith (msgf i) already0_msg = false ∧
                 py_startswith (msgf i) already1_msg = false) :
    ∀ fuel i, fuel + i = ma → 0 < fuel →
      force_loop_go forceO ma fuel i =
        (some (.client (stf (ma - 1)) (msgf (ma - 1))), retried_trace fuel i) := by
  have h455 : ∀ j, ¬(stf j = 455) := by
    intro j; rcases hst j with h | h | h | h <;> rw [h] <;> decide
  have hge : ∀ j, ¬(400 ≤ stf j ∧ stf j ∉ ([406, 450, 503, 504] : List Int)) := by
    intro j; rcases hst j with h | h | h | h <;> rw [h] <;> decide
  intro fuel
  induction fuel with
  | zero => intro i _ h0; exact absurd h0 (by omega)
  | succ f ih =>
    intro i hsum _
    rcases f with _ | g
    · have hi : i = ma - 1 := by omega
      have hnlt : ¬(i < ma - 1) := by omega
      subst hi
      simp [force_loop_go, hf (ma - 1), (hmsg (ma - 1)).1, (hmsg (ma - 1)).2,
        h455 (ma - 1), hge (ma - 1), hnlt, retried_trace]
    · have hlt : i < ma - 1 := by omega
      have hrec := ih (i + 1) (by omega) (by omega)
      rw [force_loop_go, hf i]
      rcases hst i with h | h | h | h <;> rw [h] <;>
        norm_num [(hmsg i).1, (hmsg i).2, hlt, hrec, retried_trace]

/-- C3: against a backend whose every directory force write fails with a
retriable status (406, 450, 503 or 504), `_smart_link_rdir` attempts the
write exactly 7 times, sleeping `attempt_index` seconds between attempts —
the sleep sequence is exactly `[0, 1, 2, 3, 4, 5]`, hence non-decreasing —
and then raises the last error (no database creation happens). -/
theorem C3_retry_ceiling :
    ∀ ns vol fleet cap stype pollO forceO createO polled
      (stf : Nat → Int) (msgf : Nat → String),
      0 < (opened_db_list fleet).length →
      pollO 0 = .ok polled →
      (∀ i, forceO i = some (.client (stf i) (msgf i))) →
      (∀ i, stf i = 406 ∨ stf i = 450 ∨ stf i = 503 ∨ stf i = 504) →
      (∀ i, py_startswith (msgf i) already0_msg = false ∧
            py_startswith (msgf i) already1_msg = false) →
      smart_link_rdir ns vol fleet cap 7 stype pollO forceO createO =
        (.error (.client (stf 6) (msgf 6)),
         .pollCall (some (avoids_list ns cap fleet)) [make_id ns stype vol] ::
           retried_trace 7 0) ∧
      forceCount (retried_trace 7 0) = 7 ∧
      sleepsOf (retried_trace 7 0) = [0, 1, 2, 3, 4, 5] ∧
      List.Chain' (· ≤ ·) (sleepsOf (retried_trace 7 0)) := by
  intro ns vol fleet cap stype pollO forceO createO polled stf msgf hlen hpoll
    hf hst hmsg
  have hlen' : ¬((opened_db_list fleet).length = 0) := by omega
  have hloop : force_loop forceO 7 =
      (some (.client (stf 6) (msgf 6)), retried_trace 7 0) := by
    have h := force_loop_go_all_retriable forceO stf msgf 7 hf hst hmsg 7 0
      (by omega) (by omega)
    simpa [force_loop] using h
  have hs : sleepsOf (retried_trace 7 0) = [0, 1, 2, 3, 4, 5] := by decide
  refine ⟨?_, by decide, hs, ?_⟩
  · simp [smart_link_rdir, hlen', poll_phase, hpoll, hloop]
  · rw [hs]
    simp [List.chain'_cons]

/-- C3, witness: a backend always answering 503 on a one-rdir fleet. -/
theorem C3_witness :
    smart_link_rdir "NS" "vol1" fleetOne none 7 "rawx"
        (fun _ => .ok ⟨"10.0.0.9:6300", "NS|rdir|10.0.0.9:6300"⟩)
        (fun _ => some (.client 503 "Service unavailable")) none =
      (.error (.client 503 "Service unavailable"),
       .pollCall (some (avoids_list "NS" none fleetOne)) ["NS|rawx|vol1"] ::
         retried_trace 7 0) ∧
    forceCount (retried_trace 7 0) = 7 ∧
    sleepsOf (retried_trace 7 0) = [0, 1, 2, 3, 4, 5] ∧
    List.Chain' (· ≤ ·) (sleepsOf (retried_trace 7 0)) :=
  C3_retry_ceiling "NS" "vol1" fleetOne none "rawx" _ _ none
    ⟨"10.0.0.9:6300", "NS|rdir|10.0.0.9:6300"⟩ (fun _ => 503)
    (fun _ => "Service unavailable") (by decide) rfl (fun _ => rfl)
    (fun _ => Or.inr (Or.inr (Or.inl rfl)))
    (fun _ => ⟨rfl, rfl⟩)

/-- The fleet used to evaluate the network-error force failure. -/
def fleetNet : List ServiceRecord :=
  [{ addr := "10.0.0.1:6300", score := 100, opened_db_count := some 0,
     service_id := none }]

/-- C4, evaluation at the failing input: the force loop catches only
`ClientException` (source line 216), so a `directory.force` that fails
with a network-level error (`OioNetworkException`) propagates out of
`_smart_link_rdir` after a single attempt — no sleep, no retry, no
database creation — although the loop's own comment says "Monotonic
backoff (retriable and net erorrs)" and the claim (and spec) say network
errors are retried up to the ceiling. -/
theorem C4_network_not_retried :
    smart_link_rdir "NS" "vol1" fleetNet none 7 "rawx"
        (fun _ => .ok ⟨"10.0.0.1:6300", "NS|rdir|10.0.0.1:6300"⟩)
        (fun _ => some (.network "connection refused")) none =
      (.error (.network "connection refused"),
       [.pollCall (some (avoids_list "NS" none fleetNet)) ["NS|rawx|vol1"],
        .forceCall 0]) ∧
    forceCount [.pollCall (some (avoids_list "NS" none fleetNet))
        ["NS|rawx|vol1"], .forceCall 0] = 1 ∧
    sleepsOf [.pollCall (some (avoids_list "NS" none fleetNet))
        ["NS|rawx|vol1"], .forceCall 0] = [] :=
  ⟨rfl, rfl, rfl⟩

/-- C5, counterexample: the claim says that when an explicit cap was
given a 481 poll failure is propagated without a second poll.  With the
explicit cap 0 (Python-falsy, `or max_per_rdir` does not fire) the code
polls a second time without the avoid-set and succeeds. -/
theorem C5_counterexample :
    poll_phase (some 0) ["NS|rdir|busy"] ["NS|rawx|vol1"]
      (fun n => if n = 0 then .error (.client 481 "no candidate")
                else .ok ⟨"10.0.0.2:6300", "NS|rdir|10.0.0.2:6300"⟩) =
      (.ok ⟨"10.0.0.2:6300", "NS|rdir|10.0.0.2:6300"⟩,
       [.pollCall (some ["NS|rdir|busy"]) ["NS|rawx|vol1"],
        .pollCall none ["NS|rawx|vol1"]]) := rfl

/-- C5 (amended): when the first `_poll_rdir` call fails with the
distinguished "no candidate" status 481 and the cap is absent or zero
(Python-falsy), the poll is retried exactly once with no avoid-set and
the retry's outcome (success or error) is final; when a nonzero explicit
cap was given, or the failing status is anything other than 481, or the
failure is not a `ClientException` (e.g. a network error), the error is
propagated with no second poll. -/
theorem C5_poll_retry :
    (∀ cap avoid known pollO st msg,
      pollO 0 = .error (.client st msg) → st = 481 → pyTruthy cap = false →
      poll_phase cap avoid known pollO =
        (pollO 1, [.pollCall (some avoid) known, .pollCall none known]))
  ∧ (∀ cap avoid known pollO st msg,
      pollO 0 = .error (.client st msg) → (st ≠ 481 ∨ pyTruthy cap = true) →
      poll_phase cap avoid known pollO =
        (.error (.client st msg), [.pollCall (some avoid) known]))
  ∧ (∀ cap avoid known pollO m,
      pollO 0 = .error (.network m) →
      poll_phase cap avoid known pollO =
        (.error (.network m), [.pollCall (some avoid) known])) := by
  refine ⟨?_, ?_, ?_⟩
  · intro cap avoid known pollO st msg h h481 hcap
    simp [poll_phase, h, h481, hcap]
  · intro cap avoid known pollO st msg h hor
    rcases hor with h481 | hcap
    · simp [poll_phase, h, h481]
    · simp [poll_phase, h, hcap]
  · intro cap avoid known pollO m h
    simp [poll_phase, h]

/-- C5, witness: with no cap and a 481 failure the second (avoid-free)
poll's answer is returned. -/
theorem C5_witness :
    poll_phase none ["NS|rdir|busy"] ["NS|rawx|vol1"]
      (fun n => if n = 0 then .error (.client 481 "no candidate")
                else .ok ⟨"10.0.0.2:6300", "NS|rdir|10.0.0.2:6300"⟩) =
      (.ok ⟨"10.0.0.2:6300", "NS|rdir|10.0.0.2:6300"⟩,
       [.pollCall (some ["NS|rdir|busy"]) ["NS|rawx|vol1"],
        .pollCall none ["NS|rawx|vol1"]]) :=
  (C5_poll_retry.1 none ["NS|rdir|busy"] ["NS|rawx|vol1"] _ 481 "no candidate"
    rfl rfl rfl).trans rfl

theorem group_fold_same (e0 : OioErr) :
    ∀ (rest : List (String × OioErr)) (vs : List String),
      (∀ p ∈ rest, p.2 = e0) →
      rest.foldl (fun groups p => addErr groups p.1 p.2) [(e0, vs)] =
        [(e0, vs ++ rest.map Prod.fst)] := by
  intro rest
  induction rest with
  | nil => intro vs _; simp
  | cons p t ih =>
    intro vs hall
    have hp : p.2 = e0 := hall p (by simp)
    have ht : ∀ q ∈ t, q.2 = e0 := fun q hq => hall q (by simp [hq])
    simp only [List.foldl_cons]
    rw [show addErr [(e0, vs)] p.1 p.2 = [(e0, vs ++ [p.1])] from by
      simp [addErr, hp]]
    rw [ih (vs ++ [p.1]) ht]
    simp

theorem group_same (errors : List (String × OioErr)) (e0 : OioErr)
    (hne : errors ≠ []) (hall : ∀ p ∈ errors, p.2 = e0) :
    group_chunk_errors errors = [(e0, errors.map Prod.fst)] := by
  match errors, hne with
  | p :: t, _ =>
    have hp : p.2 = e0 := hall p (by simp)
    have ht : ∀ q ∈ t, q.2 = e0 := fun q hq => hall q (by simp [hq])
    simp only [group_chunk_errors, List.foldl_cons]
    rw [show addErr [] p.1 p.2 = [(e0, [p.1])] from by simp [addErr, hp]]
    rw [group_fold_same e0 t [p.1] ht]
    simp

theorem covers_addErr (v w : String) (e e' : OioErr) :
    ∀ groups, covers groups v e → covers (addErr groups w e') v e := by
  intro groups
  induction groups with
  | nil => rintro ⟨vs, h, _⟩; simp at h
  | cons g gs ih =>
    rintro ⟨vs, hmem, hv⟩
    rcases List.mem_cons.mp hmem with hg | hgs
    · by_cases hge : g.1 = e'
      · refine ⟨g.2 ++ [w], ?_, ?_⟩
        · rw [show addErr (g :: gs) w e' = (g.1, g.2 ++ [w]) :: gs from by
            simp [addErr, hge]]
          have h1 : g.1 = e := by rw [← hg]
          rw [h1]
          exact List.mem_cons_self _ _
        · have h2 : g.2 = vs := by rw [← hg]
          rw [h2]
          exact List.mem_append_left _ hv
      · refine ⟨vs, ?_, hv⟩
        rw [show addErr (g :: gs) w e' = g :: addErr gs w e' from by
          simp [addErr, hge]]
        exact List.mem_cons.mpr (Or.inl hg)
    · by_cases hge : g.1 = e'
      · refine ⟨vs, ?_, hv⟩
        rw [show addErr (g :: gs) w e' = (g.1, g.2 ++ [w]) :: gs from by
          simp [addErr, hge]]
        exact List.mem_cons.mpr (Or.inr hgs)
      · rcases ih ⟨vs, hgs, hv⟩ with ⟨vs2, hm2, hv2⟩
        refine ⟨vs2, ?_, hv2⟩
        rw [show addErr (g :: gs) w e' = g :: addErr gs w e' from by
          simp [addErr, hge]]
        exact List.mem_cons.mpr (Or.inr hm2)

theorem covers_addErr_self (v : String) (e : OioErr) :
    ∀ groups, covers (addErr groups v e) v e := by
  intro groups
  induction groups with
  | nil => exact ⟨[v], by simp [addErr], by simp⟩
  | cons g gs ih =>
    by_cases hge : g.1 = e
    · refine ⟨g.2 ++ [v], ?_, by simp⟩
      rw [show addErr (g :: gs) v e = (g.1, g.2 ++ [v]) :: gs from by
        simp [addErr, hge]]
      rw [hge]
      exact List.mem_cons_self _ _
    · rcases ih with ⟨vs, hm, hv⟩
      refine ⟨vs, ?_, hv⟩
      rw [show addErr (g :: gs) v e = g :: addErr gs v e from by
        simp [addErr, hge]]
      exact List.mem_cons.mpr (Or.inr hm)

theorem covers_fold_mono (v : String) (e : OioErr) :
    ∀ (errs : List (String × OioErr)) groups, covers groups v e →
      covers (errs.foldl (fun gs p => addErr gs p.1 p.2) groups) v e := by
  intro errs
  induction errs with
  | nil => intro groups h; simpa using h
  | cons p t ih =>
    intro groups h
    simp only [List.foldl_cons]
    exact ih _ (covers_addErr v p.1 e p.2 groups h)

theorem covers_fold_mem (v : String) (e : OioErr) :
    ∀ (errs : List (String × OioErr)) groups, (v, e) ∈ errs →
      covers (errs.foldl (fun gs p => addErr gs p.1 p.2) groups) v e := by
  intro errs
  induction errs with
  | nil => intro groups h; simp at h
  | cons p t ih =>
    intro groups h
    rcases List.mem_cons.mp h with hp | ht
    · simp only [List.foldl_cons]
      have : covers (addErr groups p.1 p.2) v e := by
        have h1 : p.1 = v := by rw [← hp]
        have h2 : p.2 = e := by rw [← hp]
        rw [h1, h2]
        exact covers_addErr_self v e groups
      exact covers_fold_mono v e t _ this
    · simp only [List.foldl_cons]
      exact ih _ ht

theorem covers_two_le (v1 v2 : String) (e1 e2 : OioErr) (hne : e1 ≠ e2) :
    ∀ groups, covers groups v1 e1 → covers groups v2 e2 →
      2 ≤ groups.length := by
  intro groups hc1 hc2
  rcases groups with _ | ⟨g1, _ | ⟨g2, t⟩⟩
  · rcases hc1 with ⟨vs, h, _⟩
    simp at h
  · rcases hc1 with ⟨vs1, h1, _⟩
    rcases hc2 with ⟨vs2, h2, _⟩
    simp only [List.mem_singleton] at h1 h2
    exact (hne (congrArg Prod.fst (h1.trans h2.symm))).elim
  · simp only [List.length_cons]
    omega

/-- C6: in `assign_services` per-volume failures are collected, not raised
immediately; afterwards, no collected error raises nothing, a single
distinct error signature is re-raised once carrying every affected volume
id, and two or more distinct signatures raise one aggregate error whose
groups (at least two) cover every collected pair.  Concretely, a
two-provider batch failing the link with the same error kind re-raises it
with `["p1", "p2"]`, and with two kinds raises one aggregate error with
two groups — in both runs the second provider was still processed after
the first failed. -/
theorem C6_error_aggregation :
    (finalize_errors [] = none)
  ∧ (∀ errors e0, errors ≠ [] → (∀ p ∈ errors, p.2 = e0) →
      finalize_errors errors = some (.reraised e0 (errors.map Prod.fst)))
  ∧ (∀ errors (v1 : String) e1 (v2 : String) e2,
      (v1, e1) ∈ errors → (v2, e2) ∈ errors → e1 ≠ e2 →
      ∃ groups, finalize_errors errors = some (.aggregate groups) ∧
        2 ≤ groups.length ∧
        ∀ v e, (v, e) ∈ errors → ∃ vs, (e, vs) ∈ groups ∧ v ∈ vs)
  ∧ (assign_services "NS" c6_provs c6_rdirs
        (fun _ => .error (.notFound "no link"))
        (fun _ => .error (.unavailable "rdir fleet down")) =
      (.reraised (.unavailable "rdir fleet down") ["p1", "p2"],
       [.dirListCall "p1", .linkCall "p1", .dirListCall "p2", .linkCall "p2"]))
  ∧ (assign_services "NS" c6_provs c6_rdirs
        (fun _ => .error (.notFound "no link"))
        (fun pid => if pid = "p1" then .error (.unavailable "rdir fleet down")
                    else .error (.client 503 "Service unavailable")) =
      (.aggregate [(.unavailable "rdir fleet down", ["p1"]),
                   (.client 503 "Service unavailable", ["p2"])],
       [.dirListCall "p1", .linkCall "p1", .dirListCall "p2",
        .linkCall "p2"])) := by
  refine ⟨rfl, ?_, ?_, by decide, by decide⟩
  · intro errors e0 hne hall
    have hg := group_same errors e0 hne hall
    have hne' : errors.isEmpty = false := by
      cases errors with
      | nil => exact absurd rfl hne
      | cons p t => rfl
    simp [finalize_errors, hne', hg]
  · intro errors v1 e1 v2 e2 h1 h2 hne
    have hc1 : covers (group_chunk_errors errors) v1 e1 :=
      covers_fold_mem v1 e1 errors [] h1
    have hc2 : covers (group_chunk_errors errors) v2 e2 :=
      covers_fold_mem v2 e2 errors [] h2
    have hlen := covers_two_le v1 v2 e1 e2 hne (group_chunk_errors errors)
      hc1 hc2
    have hne' : errors.isEmpty = false := by
      cases errors with
      | nil => simp at h1
      | cons p t => rfl
    refine ⟨group_chunk_errors errors, ?_, hlen, ?_⟩
    · rcases hgl : group_chunk_errors errors with _ | ⟨g1, _ | ⟨g2, t⟩⟩
      · rw [hgl] at hlen; simp at hlen
      · rw [hgl] at hlen; simp at hlen
      · simp [finalize_errors, hne', hgl]
    · intro v e hmem
      exact covers_fold_mem v e errors [] hmem

/-- C6, witness: the single-signature branch applied to a concrete
two-volume error list. -/
theorem C6_witness :
    finalize_errors
        [("p1", .unavailable "rdir fleet down"),
         ("p2", .unavailable "rdir fleet down")] =
      some (.reraised (.unavailable "rdir fleet down") ["p1", "p2"]) :=
  (C6_error_aggregation.2.1
    [("p1", .unavailable "rdir fleet down"),
     ("p2", .unavailable "rdir fleet down")]
    (.unavailable "rdir fleet down") (by simp) (by decide)).trans (by rfl)

theorem dictGet_none_of_not_mem {A : Type} (k : String) :
    ∀ d : List (String × A), k ∉ d.map Prod.fst → dictGet d k = none := by
  intro d
  induction d with
  | nil => intro _; rfl
  | cons p rest ih =>
    intro h
    simp only [List.map_cons, List.mem_cons] at h
    push_neg at h
    have hne : ¬(p.1 = k) := fun hh => h.1 hh.symm
    simp only [dictGet, if_neg hne]
    exact ih h.2

theorem dictGet_dictPop_self {A : Type} (k : String) :
    ∀ d : List (String × A), (d.map Prod.fst).Nodup →
      dictGet (dictPop d k) k = none := by
  intro d
  induction d with
  | nil => intro _; rfl
  | cons p rest ih =>
    intro hnd
    simp only [List.map_cons, List.nodup_cons] at hnd
    by_cases hp : p.1 = k
    · simp only [dictPop, if_pos hp]
      apply dictGet_none_of_not_mem
      rw [← hp]
      exact hnd.1
    · simp only [dictPop, if_neg hp, dictGet]
      exact ih hnd.2

/-- C7: when an rdir request for a volume whose address is cached fails
with a network-level error, the Request Executor evicts the cached address
before propagating the error (so a later resolve for that volume cannot
answer from the cache and must perform a directory lookup — its trace
shows the lookup for every directory oracle); when it fails with an
application-level (HTTP status) error, the error is propagated unchanged
and the cache is left exactly as it was. -/
theorem C7_cache_invalidation :
    ∀ dirList httpO cache volume action host create params0 stype sb,
      (cache.map Prod.fst).Nodup →
      dictGet cache volume = some host →
      dictGet base_url stype = some sb →
      ((∀ m, httpO (make_uri_path host sb action)
            (request_params params0 volume create) = .error (.network m) →
          rdir_request dirList httpO cache volume action create params0 stype =
            { result := .error (.network m),
              cache := clear_cache cache volume, events := [] } ∧
          dictGet (clear_cache cache volume) volume = none ∧
          ∀ dirList2,
            (get_rdir_addr dirList2 (clear_cache cache volume) volume).events =
              [.dirListCall volume])
      ∧ (∀ st m, httpO (make_uri_path host sb action)
            (request_params params0 volume create) = .error (.client st m) →
          rdir_request dirList httpO cache volume action create params0 stype =
            { result := .error (.client st m), cache := cache,
              events := [] })) := by
  intro dirList httpO cache volume action host create params0 stype sb hnd hc hb
  have hres : get_rdir_addr dirList cache volume =
      { result := .ok host, cache := cache, events := [] } := by
    simp [get_rdir_addr, hc]
  have hnone : dictGet (clear_cache cache volume) volume = none :=
    dictGet_dictPop_self volume cache hnd
  constructor
  · intro m hh
    refine ⟨?_, hnone, ?_⟩
    · simp [rdir_request, hres, hb, hh]
    · intro dirList2
      cases hd : dirList2 volume with
      | ok resp =>
        cases hfr : filter_rdir_host resp with
        | ok h2 => simp [get_rdir_addr, hnone, hd, hfr]
        | error e => simp [get_rdir_addr, hnone, hd, hfr]
      | error e =>
        cases e <;> simp [get_rdir_addr, hnone, hd]
  · intro st m hh
    simp [rdir_request, hres, hb, hh]

/-- C7, witness: a cached volume, a network failure of the HTTP call. -/
theorem C7_witness :
    rdir_request (fun _ => .error (.notFound "never consulted"))
        (fun _ _ => .error (.network "connection timeout"))
        [("vol1", "10.0.0.5:6300")] "vol1" "fetch" false [] "rawx" =
      { result := .error (.network "connection timeout"),
        cache := clear_cache [("vol1", "10.0.0.5:6300")] "vol1",
        events := [] } ∧
    dictGet (clear_cache [("vol1", "10.0.0.5:6300")] "vol1") "vol1" = none ∧
    ∀ dirList2,
      (get_rdir_addr dirList2 (clear_cache [("vol1", "10.0.0.5:6300")] "vol1")
          "vol1").events = [.dirListCall "vol1"] :=
  (C7_cache_invalidation (fun _ => .error (.notFound "never consulted"))
    (fun _ _ => .error (.network "connection timeout"))
    [("vol1", "10.0.0.5:6300")] "vol1" "fetch" "10.0.0.5:6300" false []
    "rawx" "rdir" (by simp) rfl rfl).1 "connection timeout" rfl

/-- C10: in `assign_services`, a provider whose directory lookup returns
an existing rdir link to an address that is not among the currently known
rdir services is left untouched apart from a logged warning: no
attachment, no synthesized placeholder (`by_id` unchanged, unlike the
read path), no collected error, and no link attempt for that provider. -/
theorem C10_unknown_rdir_skipped :
    ∀ ns dirList linkO acc provider resp host,
      dirList (provider.service_id.getD provider.addr) = .ok resp →
      filter_rdir_host resp = .ok host →
      dictGet acc.by_id (make_id ns "rdir" host) = none →
      assign_step ns dirList linkO acc provider =
        .ok { acc with
              results := acc.results ++
                [(provider.service_id.getD provider.addr, none)],
              events := acc.events ++
                [.dirListCall (provider.service_id.getD provider.addr)] } := by
  intro ns dirList linkO acc provider resp host hdir hfil hnone
  simp [assign_step, hdir, hfil, hnone]

/-- C10, witness: one provider linked to an unknown rdir host. -/
theorem C10_witness :
    assign_step "NS" (fun _ => .ok [⟨"rdir", "10.9.9.9:6300"⟩])
        (fun _ => .error (.unavailable "down"))
        { by_id := by_id_init "NS" c6_rdirs, results := [], errors := [],
          events := [] }
        { addr := "p1", score := 50, opened_db_count := none,
          service_id := none } =
      .ok { by_id := by_id_init "NS" c6_rdirs,
            results := [("p1", none)], errors := [],
            events := [.dirListCall "p1"] } :=
  (C10_unknown_rdir_skipped "NS" (fun _ => .ok [⟨"rdir", "10.9.9.9:6300"⟩])
    (fun _ => .error (.unavailable "down"))
    { by_id := by_id_init "NS" c6_rdirs, results := [], errors := [],
      events := [] }
    { addr := "p1", score := 50, opened_db_count := none, service_id := none }
    [⟨"rdir", "10.9.9.9:6300"⟩] "10.9.9.9:6300" rfl rfl rfl).trans (by rfl)

theorem dictGet_dictSet_ne {A : Type} (k key : String) (v : A)
    (hne : ¬(key = k)) :
    ∀ d, dictGet (dictSet d key v) k = dictGet d k := by
  intro d
  induction d with
  | nil => simp [dictSet, dictGet, hne]
  | cons p rest ih =>
    by_cases hp : p.1 = key
    · simp [dictSet, dictGet, hp, hne]
    · simp [dictSet, dictGet, hp, ih]

theorem get_step_shape (ns : String)
    (dirList : String → Except OioErr (List SrvLink)) (acc : GetAcc)
    (s : ServiceRecord) :
    (get_step ns dirList acc s).results.length = acc.results.length + 1 ∧
    (∀ j x, j < acc.results.length → acc.results[j]? = some x →
      (get_step ns dirList acc s).results[j]? = some x) ∧
    (get_step ns dirList acc s).events =
      acc.events ++ [.dirListCall (pyOr s.service_id s.addr)] := by
  have happend : ∀ entry : String × Option ServiceRecord,
      ∀ j x, j < acc.results.length → acc.results[j]? = some x →
        (acc.results ++ [entry])[j]? = some x := by
    intro entry j x hj hx
    rw [List.getElem?_append_left hj]
    exact hx
  rcases hd : dirList (pyOr s.service_id s.addr) with e | resp
  · exact ⟨by simp [get_step, hd], fun j x hj hx => by
      simpa [get_step, hd] using happend _ j x hj hx, by simp [get_step, hd]⟩
  · rcases hf : filter_rdir_host resp with e2 | host
    · exact ⟨by simp [get_step, hd, hf], fun j x hj hx => by
        simpa [get_step, hd, hf] using happend _ j x hj hx,
        by simp [get_step, hd, hf]⟩
    · rcases hg : dictGet acc.by_id (make_id ns "rdir" host) with _ | r
      · exact ⟨by simp [get_step, hd, hf, hg], fun j x hj hx => by
          simpa [get_step, hd, hf, hg] using happend _ j x hj hx,
          by simp [get_step, hd, hf, hg]⟩
      · exact ⟨by simp [get_step, hd, hf, hg], fun j x hj hx => by
          simpa [get_step, hd, hf, hg] using happend _ j x hj hx,
          by simp [get_step, hd, hf, hg]⟩

theorem get_step_by_id_pres (ns : String)
    (dirList : String → Except OioErr (List SrvLink))
    (init : List (String × ServiceRecord)) (acc : GetAcc) (s : ServiceRecord)
    (hP : ∀ k v, dictGet init k = some v → dictGet acc.by_id k = some v) :
    ∀ k v, dictGet init k = some v →
      dictGet (get_step ns dirList acc s).by_id k = some v := by
  intro k v hk
  have hacc := hP k v hk
  rcases hd : dirList (pyOr s.service_id s.addr) with e | resp
  · simpa [get_step, hd] using hacc
  · rcases hf : filter_rdir_host resp with e2 | host
    · simpa [get_step, hd, hf] using hacc
    · rcases hg : dictGet acc.by_id (make_id ns "rdir" host) with _ | r
      · have hne : ¬(make_id ns "rdir" host = k) := by
          intro hEq
          rw [hEq, hacc] at hg
          exact Option.noConfusion hg
        have hby : (get_step ns dirList acc s).by_id =
            dictSet acc.by_id (make_id ns "rdir" host)
              { addr := host, score := 0, opened_db_count := none,
                service_id := none } := by
          simp [get_step, hd, hf, hg]
        rw [hby, dictGet_dictSet_ne k (make_id ns "rdir" host) _ hne acc.by_id]
        exact hacc
      · simpa [get_step, hd, hf, hg] using hacc

theorem get_fold_pres (ns : String)
    (dirList : String → Except OioErr (List SrvLink)) :
    ∀ (l : List ServiceRecord) (acc : GetAcc) j x,
      j < acc.results.length → acc.results[j]? = some x →
      (List.foldl (get_step ns dirList) acc l).results[j]? = some x := by
  intro l
  induction l with
  | nil => intro acc j x _ hx; simpa using hx
  | cons s rest ih =>
    intro acc j x hj hx
    have hshape := get_step_shape ns dirList acc s
    simp only [List.foldl_cons]
    apply ih
    · rw [hshape.1]; omega
    · exact hshape.2.1 j x hj hx

theorem get_fold_events (ns : String)
    (dirList : String → Except OioErr (List SrvLink)) :
    ∀ (l : List ServiceRecord) (acc : GetAcc),
      (∀ e ∈ acc.events, ∃ ref, e = Ev.dirListCall ref) →
      ∀ e ∈ (List.foldl (get_step ns dirList) acc l).events,
        ∃ ref, e = Ev.dirListCall ref := by
  intro l
  induction l with
  | nil => intro acc h; simpa using h
  | cons s rest ih =>
    intro acc h
    simp only [List.foldl_cons]
    apply ih
    intro e he
    rw [(get_step_shape ns dirList acc s).2.2] at he
    rcases List.mem_append.mp he with h1 | h2
    · exact h e h1
    · simp only [List.mem_singleton] at h2
      exact ⟨pyOr s.service_id s.addr, h2⟩

theorem get_fold_attach (ns : String)
    (dirList : String → Except OioErr (List SrvLink))
    (init : List (String × ServiceRecord)) :
    ∀ (services : List ServiceRecord) (acc : GetAcc),
      (∀ k v, dictGet init k = some v → dictGet acc.by_id k = some v) →
      ∀ i s resp host r,
        services[i]? = some s →
        dirList (pyOr s.service_id s.addr) = .ok resp →
        filter_rdir_host resp = .ok host →
        dictGet init (make_id ns "rdir" host) = some r →
        (List.foldl (get_step ns dirList) acc
            services).results[acc.results.length + i]? =
          some (s.addr, some r) := by
  intro services
  induction services with
  | nil => intro acc _ i s resp host r hi; simp at hi
  | cons s0 rest ih =>
    intro acc hP i s resp host r hi hd hf hg
    rcases i with _ | j
    · simp only [List.getElem?_cons_zero] at hi
      injection hi with hs
      subst hs
      have hacc : dictGet acc.by_id (make_id ns "rdir" host) = some r :=
        hP _ _ hg
      have hstep : (get_step ns dirList acc s0).results =
          acc.results ++ [(s0.addr, some r)] := by
        simp [get_step, hd, hf, hacc]
      have hlen : acc.results.length <
          (get_step ns dirList acc s0).results.length := by
        rw [hstep]
        simp
      have hidx : (get_step ns dirList acc s0).results[acc.results.length]? =
          some (s0.addr, some r) := by
        rw [hstep]
        exact List.getElem?_concat_length _ _
      simp only [List.foldl_cons, Nat.add_zero]
      exact get_fold_pres ns dirList rest _ acc.results.length _ hlen hidx
    · simp only [List.getElem?_cons_succ] at hi
      simp only [List.foldl_cons]
      have hP' := get_step_by_id_pres ns dirList init acc s0 hP
      have hrec := ih (get_step ns dirList acc s0) hP' j s resp host r hi hd
        hf hg
      rw [(get_step_shape ns dirList acc s0).1] at hrec
      have heq : acc.results.length + (j + 1) =
          acc.results.length + 1 + j := by omega
      rw [heq]
      exact hrec

/-- C9: on the read path, for every service whose directory lookup
returns an existing rdir link whose host is among the currently known
rdir services (an entry of the initial `by_id` dict), `get_assignments`
attaches exactly that conscience record to the service; and its whole
trace consists of directory lookups only — no directory force and no
rdir database creation happens for any service in the batch. -/
theorem C9_read_attach :
    ∀ ns all_services all_rdir dirList,
      (∀ e ∈ (get_assignments ns all_services all_rdir dirList).events,
        ∃ ref, e = Ev.dirListCall ref)
    ∧ (∀ (i : Nat) (s : ServiceRecord) (resp : List SrvLink) (host : String)
        (r : ServiceRecord),
        all_services[i]? = some s →
        dirList (pyOr s.service_id s.addr) = .ok resp →
        filter_rdir_host resp = .ok host →
        dictGet (by_id_init ns all_rdir) (make_id ns "rdir" host) = some r →
        (get_assignments ns all_services all_rdir dirList).results[i]? =
          some (s.addr, some r)) := by
  intro ns all_services all_rdir dirList
  constructor
  · apply get_fold_events
    intro e he
    simp at he
  · intro i s resp host r hi hd hf hg
    have h := get_fold_attach ns dirList (by_id_init ns all_rdir) all_services
      { by_id := by_id_init ns all_rdir, results := [], events := [] }
      (fun k v hk => hk) i s resp host r hi hd hf hg
    simpa [get_assignments] using h

/-- C9, witness: one service linked to the single known rdir. -/
theorem C9_witness :
    (∀ e ∈ (get_assignments "NS" c6_provs c6_rdirs
        (fun _ => .ok [⟨"rdir", "r1"⟩])).events,
      ∃ ref, e = Ev.dirListCall ref)
    ∧ (∀ (i : Nat) (s : ServiceRecord) (resp : List SrvLink) (host : String)
        (r : ServiceRecord),
        c6_provs[i]? = some s →
        (fun _ : String => (.ok [⟨"rdir", "r1"⟩] :
            Except OioErr (List SrvLink))) (pyOr s.service_id s.addr) =
          .ok resp →
        filter_rdir_host resp = .ok host →
        dictGet (by_id_init "NS" c6_rdirs) (make_id "NS" "rdir" host) =
          some r →
        (get_assignments "NS" c6_provs c6_rdirs
            (fun _ => .ok [⟨"rdir", "r1"⟩])).results[i]? =
          some (s.addr, some r)) :=
  C9_read_attach "NS" c6_provs c6_rdirs (fun _ => .ok [⟨"rdir", "r1"⟩])

theorem chunk_go_head
    (backend : Option String → Except OioErr (List (String × String)))
    (ma fuel : Nat) (cursor : Option String) :
    (chunk_fetch_go backend ma (fuel + 1) cursor).1.head? = some cursor := by
  simp only [chunk_fetch_go]
  rcases hf : (fetch_page backend ma cursor).1 with e | page
  · rfl
  · by_cases hlen : page.length = 0
    · simp [hlen]
    · simp only [hlen, if_false]
      rcases hpr : parse_records page with ⟨ptups, poe⟩
      rcases poe with _ | e2
      · rcases hgl : page.getLast? with _ | last
        · rfl
        · rfl
      · rfl

theorem parse_records_len :
    ∀ page : List (String × String), (parse_records page).2 = none →
      (parse_records page).1.length = page.length := by
  intro page
  induction page with
  | nil => intro _; rfl
  | cons kv rest ih =>
    intro h
    simp only [parse_records] at h ⊢
    split at h
    · rename_i a b c heq
      simp only [heq, List.length_cons] at *
      rw [ih h]
    · simp at h

theorem chunk_go_term
    (backend : Option String → Except OioErr (List (String × String)))
    (ma : Nat) :
    ∀ fuel cursor tr tups oerr,
      chunk_fetch_go backend ma fuel cursor = (tr, some (tups, oerr)) →
      tr ≠ [] ∧ (oerr = none →
        ∃ c, tr.getLast? = some c ∧ (fetch_page backend ma c).1 = .ok []) := by
  intro fuel
  induction fuel with
  | zero =>
    intro cursor tr tups oerr h
    simp [chunk_fetch_go] at h
  | succ f ih =>
    intro cursor tr tups oerr h
    rcases hf : (fetch_page backend ma cursor).1 with e | page
    · simp only [chunk_fetch_go, hf, Prod.mk.injEq, Option.some.injEq] at h
      obtain ⟨htr, _, hoe⟩ := h
      subst htr
      refine ⟨by simp, ?_⟩
      intro hn
      rw [← hoe] at hn
      simp at hn
    · by_cases hlen : page.length = 0
      · simp only [chunk_fetch_go, hf, hlen, if_true, Prod.mk.injEq,
          Option.some.injEq] at h
        obtain ⟨htr, _, hoe⟩ := h
        subst htr
        refine ⟨by simp, fun _ => ⟨cursor, by simp, ?_⟩⟩
        rw [hf, List.length_eq_zero.mp hlen]
      · rcases hpr : parse_records page with ⟨ptups, poe⟩
        rcases poe with _ | e2
        · rcases hgl : page.getLast? with _ | last
          · simp only [chunk_fetch_go, hf, hlen, if_false, hpr, hgl,
              Prod.mk.injEq, Option.some.injEq] at h
            obtain ⟨htr, _, hoe⟩ := h
            subst htr
            refine ⟨by simp, ?_⟩
            intro hn
            rw [← hoe] at hn
            simp at hn
          · rcases hrec : chunk_fetch_go backend ma f (some last.1) with
              ⟨rtr, rres⟩
            simp only [chunk_fetch_go, hf, hlen, if_false, hpr, hgl, hrec] at h
            rcases rres with _ | ⟨rtups, roe⟩
            · simp at h
            · simp only [Option.map_some', Prod.mk.injEq,
                Option.some.injEq] at h
              obtain ⟨htr, _, hoe⟩ := h
              obtain ⟨hne, hterm⟩ := ih (some last.1) rtr rtups roe
                (by rw [hrec])
              refine ⟨by rw [← htr]; simp, ?_⟩
              intro hnone
              rcases hterm (by rw [hoe, hnone]) with ⟨c, hc1, hc2⟩
              refine ⟨c, ?_, hc2⟩
              rw [← htr]
              rcases rtr with _ | ⟨r0, rt⟩
              · exact absurd rfl hne
              · rw [List.getLast?_cons_cons]
                exact hc1
        · simp only [chunk_fetch_go, hf, hlen, if_false, hpr, Prod.mk.injEq,
            Option.some.injEq] at h
          obtain ⟨htr, _, hoe⟩ := h
          subst htr
          refine ⟨by simp, ?_⟩
          intro hn
          rw [← hoe] at hn
          simp at hn

theorem chunk_go_step
    (backend : Option String → Except OioErr (List (String × String)))
    (ma : Nat) :
    ∀ fuel cursor tr res,
      chunk_fetch_go backend ma fuel cursor = (tr, res) →
      ∀ j c1 c2, tr[j]? = some c1 → tr[j + 1]? = some c2 →
        ∃ page last, (fetch_page backend ma c1).1 = .ok page ∧
          page.getLast? = some last ∧ c2 = some last.1 := by
  intro fuel
  induction fuel with
  | zero =>
    intro cursor tr res h j c1 c2 h1 h2
    simp only [chunk_fetch_go, Prod.mk.injEq] at h
    obtain ⟨htr, _⟩ := h
    rw [← htr] at h1
    simp at h1
  | succ f ih =>
    intro cursor tr res h j c1 c2 h1 h2
    rcases hf : (fetch_page backend ma cursor).1 with e | page
    · simp only [chunk_fetch_go, hf, Prod.mk.injEq] at h
      obtain ⟨htr, _⟩ := h
      rw [← htr] at h2
      simp at h2
    · by_cases hlen : page.length = 0
      · simp only [chunk_fetch_go, hf, hlen, if_true, Prod.mk.injEq] at h
        obtain ⟨htr, _⟩ := h
        rw [← htr] at h2
        simp at h2
      · rcases hpr : parse_records page with ⟨ptups, poe⟩
        rcases poe with _ | e2
        · rcases hgl : page.getLast? with _ | last
          · simp only [chunk_fetch_go, hf, hlen, if_false, hpr, hgl,
              Prod.mk.injEq] at h
            obtain ⟨htr, _⟩ := h
            rw [← htr] at h2
            simp at h2
          · rcases hrec : chunk_fetch_go backend ma f (some last.1) with
              ⟨rtr, rres⟩
            simp only [chunk_fetch_go, hf, hlen, if_false, hpr, hgl, hrec,
              Prod.mk.injEq] at h
            obtain ⟨htr, _⟩ := h
            rw [← htr] at h1 h2
            rcases j with _ | j'
            · simp only [List.getElem?_cons_zero, Option.some.injEq] at h1
              subst h1
              simp only [List.getElem?_cons_succ] at h2
              rcases f with _ | f'
              · simp only [chunk_fetch_go, Prod.mk.injEq] at hrec
                obtain ⟨hrtr, _⟩ := hrec
                rw [← hrtr] at h2
                simp at h2
              · have hh := chunk_go_head backend ma f' (some last.1)
                rw [hrec] at hh
                rcases rtr with _ | ⟨r0, rt⟩
                · simp at h2
                · simp only [List.head?_cons, Option.some.injEq] at hh
                  simp only [List.getElem?_cons_zero, Option.some.injEq] at h2
                  exact ⟨page, last, hf, hgl, by rw [← h2, hh]⟩
            · simp only [List.getElem?_cons_succ] at h1 h2
              exact ih (some last.1) rtr rres (by rw [hrec]) j' c1 c2 h1 h2
        · simp only [chunk_fetch_go, hf, hlen, if_false, hpr,
            Prod.mk.injEq] at h
          obtain ⟨htr, _⟩ := h
          rw [← htr] at h2
          simp at h2

/-- C8: `chunk_fetch` terminates normally exactly when a page comes back
empty (an empty page stops the loop at once with nothing yielded, and a
normally terminated run's last page request returned an empty page); a
successfully parsed page yields exactly one tuple per record; after each
non-empty page the next request's `start_after` cursor is the last key of
that page; and against the three-page backend with page sizes 2, 2, 0 it
issues exactly the three requests `none, "d|e|f", "j|k|l"` and yields
exactly 4 tuples before stopping. -/
theorem C8_pagination :
    (∀ backend ma fuel cursor tr tups
      (oerr : Option OioErr),
      chunk_fetch_go backend ma fuel cursor = (tr, some (tups, oerr)) →
      tr ≠ [] ∧ (oerr = none →
        ∃ c, tr.getLast? = some c ∧ (fetch_page backend ma c).1 = .ok []))
  ∧ (∀ backend (ma fuel : Nat) cursor,
      (fetch_page backend ma cursor).1 = .ok [] →
      chunk_fetch_go backend ma (fuel + 1) cursor = ([cursor], some ([], none)))
  ∧ (∀ (page : List (String × String)) tups,
      parse_records page = (tups, none) → tups.length = page.length)
  ∧ (∀ backend ma fuel cursor tr res,
      chunk_fetch_go backend ma fuel cursor = (tr, res) →
      ∀ j c1 c2, tr[j]? = some c1 → tr[j + 1]? = some c2 →
        ∃ page last, (fetch_page backend ma c1).1 = .ok page ∧
          page.getLast? = some last ∧ c2 = some last.1)
  ∧ chunk_fetch c8_backend 3 3 =
      ([none, some "d|e|f", some "j|k|l"],
       some ([("a", "b", "c", "v1"), ("d", "e", "f", "v2"),
              ("g", "h", "i", "v3"), ("j", "k", "l", "v4")], none)) := by
  refine ⟨fun backend ma fuel cursor tr tups oerr h =>
      chunk_go_term backend ma fuel cursor tr tups oerr h,
    ?_, ?_, fun backend ma fuel cursor tr res h =>
      chunk_go_step backend ma fuel cursor tr res h, rfl⟩
  · intro backend ma fuel cursor h
    simp [chunk_fetch_go, h]
  · intro page tups h
    have h2 : (parse_records page).2 = none := by rw [h]
    have := parse_records_len page h2
    rw [h] at this
    exact this

/-- C8, witness: the termination characterization applied to the
three-page backend run. -/
theorem C8_witness :
    [none, some "d|e|f", some "j|k|l"] ≠ ([] : List (Option String)) ∧
    ((none : Option OioErr) = none →
      ∃ c, [none, some "d|e|f", some "j|k|l"].getLast? = some c ∧
        (fetch_page c8_backend 3 c).1 = .ok []) :=
  C8_pagination.1 c8_backend 3 3 none [none, some "d|e|f", some "j|k|l"]
    [("a", "b", "c", "v1"), ("d", "e", "f", "v2"),
     ("g", "h", "i", "v3"), ("j", "k", "l", "v4")] none rfl

end RdirSpec
